import Mathlib

/-!
Shallow embedding of `google/cloud/bigquery/reservation_v1/services/
reservation_service/transports/grpc.py`: the class
`ReservationServiceGrpcTransport`.

The Python class is stateful: it owns an optional cached gRPC channel
(`_grpc_channel`, present only when the attribute has been set) and a
dictionary `_stubs` from method name to stub callable.  We embed it as a
`Transport` record threaded explicitly through each operation, together with

* an allocation counter `alloc : Nat` supplying a fresh identity to every
  object the code constructs (channels created by `grpc_helpers.create_channel`
  and stubs created by `channel.unary_unary`); two model values are the same
  Python object exactly when they are equal, since every constructed object
  carries a distinct allocation id; and
* an effect trace (`List Effect`) recording every object construction and
  every invocation of the `client_cert_source` callback, so that statements
  such as "no channel is created during construction" or "the callback is
  invoked exactly once" are about the recorded trace.

Python truthiness drives the constructor's branching, so optional arguments
are embedded as `Option` values and their truthiness is modelled exactly:
an object (channel, callback) is truthy when present, and a string is truthy
when present and nonempty.
-/

namespace BQR

/-- A `google.auth.credentials.Credentials` object, identified only by an id:
the transport never inspects credentials, it only stores and forwards them. -/
structure Cred where
  cid : Nat
deriving DecidableEq, Repr

/-- The Python value held in the `credentials` variable / attribute: `None`,
the literal `False` (assigned by the explicit-channel branch), or a
credentials object. -/
inductive CredArg where
  | pyNone : CredArg
  | pyFalse : CredArg
  | cred : Cred → CredArg
deriving DecidableEq, Repr

/-- The `credentials` keyword argument as supplied by the caller. -/
def credArgOf : Option Cred → CredArg
  | none => CredArg.pyNone
  | some c => CredArg.cred c

/-- The `client_cert_source` callback: a `Callable[[], Tuple[bytes, bytes]]`
producing certificate bytes and private-key bytes.  The embedding records the
pair the callback returns; every invocation is logged in the effect trace. -/
structure CertSource where
  certBytes : List Nat
  keyBytes : List Nat
deriving DecidableEq, Repr

/-- SSL channel credentials: either built by
`grpc.ssl_channel_credentials(certificate_chain=cert, private_key=key)` from a
callback's output, or the ambient application-default material
`SslCredentials().ssl_credentials`. -/
inductive SslCreds where
  | sslChannelCredentials : List Nat → List Nat → SslCreds
  | applicationDefault : SslCreds
deriving DecidableEq, Repr

/-- A gRPC channel object.  `external` is a channel constructed by the caller
and passed in through the `channel` argument; `created` is a channel built by
`grpc_helpers.create_channel` with the recorded arguments, carrying the fresh
allocation id it received. -/
inductive Channel where
  | external : Nat → Channel
  | created : String → CredArg → Option SslCreds → List String → Nat → Channel
deriving DecidableEq, Repr

/-- Modelled from the spec: `AUTH_SCOPES`, the fixed compile-time
authorization-scope constant defined on the base transport class
(`.base`, not among the analysed sources); the spec states it is a fixed
set of required scopes shared by every method and not configurable. -/
def AUTH_SCOPES : List String :=
  ["https://www.googleapis.com/auth/bigquery",
   "https://www.googleapis.com/auth/cloud-platform"]

/-- A response deserializer as bound into a stub: either a protobuf message
class deserializer `<Type>.deserialize`, or `empty_pb2.Empty.FromString`, the
decoder of the empty message. -/
inductive Deserializer where
  | messageDeserialize : String → Deserializer
  | emptyFromString : Deserializer
deriving DecidableEq, Repr

/-- A stub callable produced by `channel.unary_unary(path,
request_serializer, response_deserializer)`; it carries the binding plus the
fresh allocation id it received when constructed. -/
structure Stub where
  channel : Channel
  methodPath : String
  request_serializer : String
  response_deserializer : Deserializer
  allocId : Nat
deriving DecidableEq, Repr

/-- One entry of the effect trace. -/
inductive Effect where
  | invokeClientCertSource : CertSource → Effect
  | createChannel : String → CredArg → Option SslCreds → List String → Nat → Effect
  | unaryUnary : String → Nat → Effect
deriving DecidableEq, Repr

/-- The instance state of `ReservationServiceGrpcTransport`: the `_host` and
`_credentials` attributes stored by the base constructor, the optional
`_grpc_channel` attribute (`none` models `hasattr(self, "_grpc_channel")`
being false), and the `_stubs` dictionary. -/
structure Transport where
  _host : String
  _credentials : CredArg
  _grpc_channel : Option Channel
  _stubs : List (String × Stub)
deriving DecidableEq, Repr

/-- `grpc_helpers.create_channel(host, credentials=..., ssl_credentials=...,
scopes=...)`: constructs a fresh channel object from its arguments, consuming
one allocation id, and logs the construction. -/
def grpc_helpers_create_channel (host : String) (credentials : CredArg)
    (ssl_credentials : Option SslCreds) (scopes : List String) (alloc : Nat) :
    Channel × Effect :=
  (Channel.created host credentials ssl_credentials scopes alloc,
   Effect.createChannel host credentials ssl_credentials scopes alloc)

/-- The classmethod `create_channel(host, credentials)`: forwards to
`grpc_helpers.create_channel` with `scopes=cls.AUTH_SCOPES` and no SSL
credentials. -/
def create_channel (host : String) (credentials : CredArg) (alloc : Nat) :
    Channel × Effect :=
  grpc_helpers_create_channel host credentials none AUTH_SCOPES alloc

/-- Truthiness of an optional Python string: `None` and `""` are falsy. -/
def truthyStr : Option String → Bool
  | none => false
  | some s => !(s == "")

/-- Python's containment test `":" in api_mtls_endpoint`: the string contains
a colon character (embedded over the string's character list). -/
def containsColon (s : String) : Bool := s.data.contains ':'

/-- Result of running `__init__`: the constructed instance, the next free
allocation id, and the trace of constructions and callback invocations
performed during construction. -/
structure InitResult where
  transport : Transport
  nextAlloc : Nat
  effects : List Effect
deriving DecidableEq, Repr

/-- Modelled from the spec: the base-class constructor
(`super().__init__(host=host, credentials=credentials)` in `.base`, not among
the analysed sources) stores the supplied host and credential source on the
instance as `_host` and `_credentials`. -/
def baseInit (host : String) (credentials : CredArg) : String × CredArg :=
  (host, credentials)

/-- `ReservationServiceGrpcTransport.__init__(host, credentials, channel,
api_mtls_endpoint, client_cert_source)`.

Branch order follows the source: `if channel:` (a channel object is truthy)
stores the channel and overwrites `credentials` with `False`;
`elif api_mtls_endpoint:` derives the host (append `":443"` unless the
endpoint contains a `":"`), builds SSL credentials from the callback or from
application default material, and creates a new channel with the fixed
scopes; otherwise no channel is created.  Finally the base constructor stores
host and credentials and `_stubs` is set to the empty dictionary. -/
def init (host : String) (credentials : Option Cred) (channel : Option Channel)
    (api_mtls_endpoint : Option String) (client_cert_source : Option CertSource)
    (alloc : Nat) : InitResult :=
  match channel with
  | some ch =>
    InitResult.mk
      (Transport.mk (baseInit host CredArg.pyFalse).1
        (baseInit host CredArg.pyFalse).2 (some ch) [])
      alloc []
  | none =>
    if truthyStr api_mtls_endpoint then
      let ep := api_mtls_endpoint.getD ""
      let host1 := if containsColon ep then ep else ep ++ ":443"
      match client_cert_source with
      | some cs =>
        let ssl := SslCreds.sslChannelCredentials cs.certBytes cs.keyBytes
        let che := grpc_helpers_create_channel host1 (credArgOf credentials)
          (some ssl) AUTH_SCOPES alloc
        InitResult.mk
          (Transport.mk (baseInit host1 (credArgOf credentials)).1
            (baseInit host1 (credArgOf credentials)).2 (some che.1) [])
          (alloc + 1)
          [Effect.invokeClientCertSource cs, che.2]
      | none =>
        let ssl := SslCreds.applicationDefault
        let che := grpc_helpers_create_channel host1 (credArgOf credentials)
          (some ssl) AUTH_SCOPES alloc
        InitResult.mk
          (Transport.mk (baseInit host1 (credArgOf credentials)).1
            (baseInit host1 (credArgOf credentials)).2 (some che.1) [])
          (alloc + 1)
          [che.2]
    else
      InitResult.mk
        (Transport.mk (baseInit host (credArgOf credentials)).1
          (baseInit host (credArgOf credentials)).2 none [])
        alloc []

/-- Result of reading the `grpc_channel` property. -/
structure ChannelResult where
  channel : Channel
  transport : Transport
  nextAlloc : Nat
  effects : List Effect
deriving DecidableEq, Repr

/-- The `grpc_channel` property: if the `_grpc_channel` attribute does not
exist yet, create a channel via `self.create_channel(self._host,
credentials=self._credentials)` and cache it; return the cached channel. -/
def grpc_channel (t : Transport) (alloc : Nat) : ChannelResult :=
  match t._grpc_channel with
  | some ch => ChannelResult.mk ch t alloc []
  | none =>
    let che := create_channel t._host t._credentials alloc
    ChannelResult.mk che.1
      (Transport.mk t._host t._credentials (some che.1) t._stubs)
      (alloc + 1) [che.2]

/-- The static data of one method accessor: the `_stubs` key, the full gRPC
method path, and the serializer / deserializer bound into the stub. -/
structure MethodDesc where
  key : String
  methodPath : String
  request_serializer : String
  response_deserializer : Deserializer
deriving DecidableEq, Repr

/-- Result of reading a stub-accessor property. -/
structure StubResult where
  stub : Option Stub
  transport : Transport
  nextAlloc : Nat
  effects : List Effect
deriving DecidableEq, Repr

/-- The shared body of every stub-accessor property: if the key is not in
`_stubs`, read `self.grpc_channel` (possibly creating the channel), call
`unary_unary` on it to construct a fresh stub, and store it under the key;
finally return `self._stubs[key]`. -/
def getStub (d : MethodDesc) (t : Transport) (alloc : Nat) : StubResult :=
  if (t._stubs.lookup d.key).isSome then
    StubResult.mk (t._stubs.lookup d.key) t alloc []
  else
    let r := grpc_channel t alloc
    let st := Stub.mk r.channel d.methodPath d.request_serializer
      d.response_deserializer r.nextAlloc
    let stubs1 := (d.key, st) :: r.transport._stubs
    StubResult.mk (stubs1.lookup d.key)
      (Transport.mk r.transport._host r.transport._credentials
        r.transport._grpc_channel stubs1)
      (r.nextAlloc + 1)
      (r.effects ++ [Effect.unaryUnary d.methodPath r.nextAlloc])

/-- A decoded response value: either the empty sentinel (`empty_pb2.Empty`)
or a typed protobuf domain message. -/
inductive RespValue where
  | emptySentinel : RespValue
  | typedMessage : String → List Nat → RespValue
deriving DecidableEq, Repr

/-- Modelled from the spec: running a response deserializer on the response
bytes of a successful call (the deserializers themselves are protobuf library
code, outside the analysed sources).  The spec states that a stub invocation
decodes the response via the descriptor's decoder, "or decodes a designated
empty/void sentinel for operations with no payload response (e.g.,
deletions)": `Empty.FromString` yields the empty sentinel,
`<Type>.deserialize` yields a typed domain message. -/
def runDeserializer : Deserializer → List Nat → RespValue
  | Deserializer.emptyFromString, _ => RespValue.emptySentinel
  | Deserializer.messageDeserialize ty, bs => RespValue.typedMessage ty bs

/-- The result a stub yields when the remote call succeeds with the given
response bytes: its bound response deserializer applied to those bytes. -/
def invokeStubSuccess (st : Stub) (respBytes : List Nat) : RespValue :=
  runDeserializer st.response_deserializer respBytes

/-- The `create_reservation` property. -/
def create_reservation : MethodDesc :=
  MethodDesc.mk "create_reservation"
    "/google.cloud.bigquery.reservation.v1.ReservationService/CreateReservation"
    "CreateReservationRequest" (Deserializer.messageDeserialize "Reservation")

/-- The `list_reservations` property. -/
def list_reservations : MethodDesc :=
  MethodDesc.mk "list_reservations"
    "/google.cloud.bigquery.reservation.v1.ReservationService/ListReservations"
    "ListReservationsRequest"
    (Deserializer.messageDeserialize "ListReservationsResponse")

/-- The `get_reservation` property. -/
def get_reservation : MethodDesc :=
  MethodDesc.mk "get_reservation"
    "/google.cloud.bigquery.reservation.v1.ReservationService/GetReservation"
    "GetReservationRequest" (Deserializer.messageDeserialize "Reservation")

/-- The `delete_reservation` property. -/
def delete_reservation : MethodDesc :=
  MethodDesc.mk "delete_reservation"
    "/google.cloud.bigquery.reservation.v1.ReservationService/DeleteReservation"
    "DeleteReservationRequest" Deserializer.emptyFromString

/-- The `update_reservation` property. -/
def update_reservation : MethodDesc :=
  MethodDesc.mk "update_reservation"
    "/google.cloud.bigquery.reservation.v1.ReservationService/UpdateReservation"
    "UpdateReservationRequest" (Deserializer.messageDeserialize "Reservation")

/-- The `create_capacity_commitment` property. -/
def create_capacity_commitment : MethodDesc :=
  MethodDesc.mk "create_capacity_commitment"
    "/google.cloud.bigquery.reservation.v1.ReservationService/CreateCapacityCommitment"
    "CreateCapacityCommitmentRequest"
    (Deserializer.messageDeserialize "CapacityCommitment")

/-- The `list_capacity_commitments` property. -/
def list_capacity_commitments : MethodDesc :=
  MethodDesc.mk "list_capacity_commitments"
    "/google.cloud.bigquery.reservation.v1.ReservationService/ListCapacityCommitments"
    "ListCapacityCommitmentsRequest"
    (Deserializer.messageDeserialize "ListCapacityCommitmentsResponse")

/-- The `get_capacity_commitment` property. -/
def get_capacity_commitment : MethodDesc :=
  MethodDesc.mk "get_capacity_commitment"
    "/google.cloud.bigquery.reservation.v1.ReservationService/GetCapacityCommitment"
    "GetCapacityCommitmentRequest"
    (Deserializer.messageDeserialize "CapacityCommitment")

/-- The `delete_capacity_commitment` property. -/
def delete_capacity_commitment : MethodDesc :=
  MethodDesc.mk "delete_capacity_commitment"
    "/google.cloud.bigquery.reservation.v1.ReservationService/DeleteCapacityCommitment"
    "DeleteCapacityCommitmentRequest" Deserializer.emptyFromString

/-- The `update_capacity_commitment` property. -/
def update_capacity_commitment : MethodDesc :=
  MethodDesc.mk "update_capacity_commitment"
    "/google.cloud.bigquery.reservation.v1.ReservationService/UpdateCapacityCommitment"
    "UpdateCapacityCommitmentRequest"
    (Deserializer.messageDeserialize "CapacityCommitment")

/-- The `split_capacity_commitment` property. -/
def split_capacity_commitment : MethodDesc :=
  MethodDesc.mk "split_capacity_commitment"
    "/google.cloud.bigquery.reservation.v1.ReservationService/SplitCapacityCommitment"
    "SplitCapacityCommitmentRequest"
    (Deserializer.messageDeserialize "SplitCapacityCommitmentResponse")

/-- The `merge_capacity_commitments` property. -/
def merge_capacity_commitments : MethodDesc :=
  MethodDesc.mk "merge_capacity_commitments"
    "/google.cloud.bigquery.reservation.v1.ReservationService/MergeCapacityCommitments"
    "MergeCapacityCommitmentsRequest"
    (Deserializer.messageDeserialize "CapacityCommitment")

/-- The `create_assignment` property. -/
def create_assignment : MethodDesc :=
  MethodDesc.mk "create_assignment"
    "/google.cloud.bigquery.reservation.v1.ReservationService/CreateAssignment"
    "CreateAssignmentRequest" (Deserializer.messageDeserialize "Assignment")

/-- The `list_assignments` property. -/
def list_assignments : MethodDesc :=
  MethodDesc.mk "list_assignments"
    "/google.cloud.bigquery.reservation.v1.ReservationService/ListAssignments"
    "ListAssignmentsRequest"
    (Deserializer.messageDeserialize "ListAssignmentsResponse")

/-- The `delete_assignment` property. -/
def delete_assignment : MethodDesc :=
  MethodDesc.mk "delete_assignment"
    "/google.cloud.bigquery.reservation.v1.ReservationService/DeleteAssignment"
    "DeleteAssignmentRequest" Deserializer.emptyFromString

/-- The `search_assignments` property. -/
def search_assignments : MethodDesc :=
  MethodDesc.mk "search_assignments"
    "/google.cloud.bigquery.reservation.v1.ReservationService/SearchAssignments"
    "SearchAssignmentsRequest"
    (Deserializer.messageDeserialize "SearchAssignmentsResponse")

/-- The `move_assignment` property. -/
def move_assignment : MethodDesc :=
  MethodDesc.mk "move_assignment"
    "/google.cloud.bigquery.reservation.v1.ReservationService/MoveAssignment"
    "MoveAssignmentRequest" (Deserializer.messageDeserialize "Assignment")

/-- The `get_bi_reservation` property. -/
def get_bi_reservation : MethodDesc :=
  MethodDesc.mk "get_bi_reservation"
    "/google.cloud.bigquery.reservation.v1.ReservationService/GetBiReservation"
    "GetBiReservationRequest" (Deserializer.messageDeserialize "BiReservation")

/-- The `update_bi_reservation` property. -/
def update_bi_reservation : MethodDesc :=
  MethodDesc.mk "update_bi_reservation"
    "/google.cloud.bigquery.reservation.v1.ReservationService/UpdateBiReservation"
    "UpdateBiReservationRequest"
    (Deserializer.messageDeserialize "BiReservation")

/-- C1: for every method accessor on a transport instance, accessing it twice
returns the identical stub object: the first access inserts the stub into the
`_stubs` mapping under the method's key, and every later access returns that
cached object without constructing a new one (same state, same allocation
counter, empty effect trace). -/
theorem stub_accessor_caches (d : MethodDesc) (t : Transport) (alloc : Nat) :
    ∃ st : Stub,
      (getStub d t alloc).stub = some st ∧
      (getStub d t alloc).transport._stubs.lookup d.key = some st ∧
      getStub d (getStub d t alloc).transport (getStub d t alloc).nextAlloc =
        StubResult.mk (some st) (getStub d t alloc).transport
          (getStub d t alloc).nextAlloc [] := by
  cases h : t._stubs.lookup d.key with
  | some st =>
    exact ⟨st, by simp [getStub, h], by simp [getStub, h], by simp [getStub, h]⟩
  | none =>
    cases hc : t._grpc_channel with
    | some ch =>
      refine ⟨Stub.mk ch d.methodPath d.request_serializer
        d.response_deserializer alloc, ?_, ?_, ?_⟩ <;>
        simp [getStub, h, grpc_channel, hc, create_channel,
          grpc_helpers_create_channel]
    | none =>
      refine ⟨Stub.mk (Channel.created t._host t._credentials none AUTH_SCOPES
        alloc) d.methodPath d.request_serializer d.response_deserializer
        (alloc + 1), ?_, ?_, ?_⟩ <;>
        simp [getStub, h, grpc_channel, hc, create_channel,
          grpc_helpers_create_channel]

/-- C2: constructing with an explicit channel makes `grpc_channel` return
exactly that channel (unchanged state, no construction), and a credentials
argument supplied alongside has no effect: the construction result is
identical to one with no credentials, and the stored `_credentials` is the
`False` sentinel. -/
theorem explicit_channel_wins (host : String) (credentials : Option Cred)
    (ch : Channel) (mtls : Option String) (ccs : Option CertSource)
    (alloc alloc2 : Nat) :
    init host credentials (some ch) mtls ccs alloc =
      init host none (some ch) mtls ccs alloc ∧
    (init host credentials (some ch) mtls ccs alloc).transport._grpc_channel =
      some ch ∧
    (init host credentials (some ch) mtls ccs alloc).transport._credentials =
      CredArg.pyFalse ∧
    (init host credentials (some ch) mtls ccs alloc).effects = [] ∧
    grpc_channel (init host credentials (some ch) mtls ccs alloc).transport
        alloc2 =
      ChannelResult.mk ch
        (init host credentials (some ch) mtls ccs alloc).transport alloc2 [] := by
  simp [init, grpc_channel, baseInit]

/-- C3: constructing with only a host and credentials (no channel, no mutual
TLS endpoint) creates no channel: the `_grpc_channel` attribute is absent, no
construction is traced and the allocation counter is untouched.  The channel
comes into existence at the first `grpc_channel` access or first stub access,
and is created from the stored host and credential source (with the fixed
scopes). -/
theorem lazy_channel_creation (host : String) (credentials : Option Cred)
    (d : MethodDesc) (alloc : Nat) :
    (init host credentials none none none alloc).transport =
      Transport.mk host (credArgOf credentials) none [] ∧
    (init host credentials none none none alloc).effects = [] ∧
    (init host credentials none none none alloc).nextAlloc = alloc ∧
    grpc_channel (init host credentials none none none alloc).transport alloc =
      ChannelResult.mk
        (Channel.created host (credArgOf credentials) none AUTH_SCOPES alloc)
        (Transport.mk host (credArgOf credentials)
          (some (Channel.created host (credArgOf credentials) none AUTH_SCOPES
            alloc)) [])
        (alloc + 1)
        [Effect.createChannel host (credArgOf credentials) none AUTH_SCOPES
          alloc] ∧
    (getStub d (init host credentials none none none alloc).transport
        alloc).transport._grpc_channel =
      some (Channel.created host (credArgOf credentials) none AUTH_SCOPES
        alloc) ∧
    Effect.createChannel host (credArgOf credentials) none AUTH_SCOPES alloc ∈
      (getStub d (init host credentials none none none alloc).transport
        alloc).effects := by
  simp [init, truthyStr, baseInit, getStub, grpc_channel, create_channel,
    grpc_helpers_create_channel]

/-- C4: the `grpc_channel` accessor is idempotent: when a channel already
exists on the instance (set at construction or by a previous access), reading
the property returns exactly that channel with unchanged state, no allocation
and no construction; and reading the property twice from any state returns
the first access's channel the second time, constructing nothing. -/
theorem grpc_channel_idempotent (t : Transport) (alloc : Nat) :
    (∀ ch alloc2, t._grpc_channel = some ch →
      grpc_channel t alloc2 = ChannelResult.mk ch t alloc2 []) ∧
    (∀ alloc2,
      grpc_channel (grpc_channel t alloc).transport alloc2 =
        ChannelResult.mk (grpc_channel t alloc).channel
          (grpc_channel t alloc).transport alloc2 []) := by
  constructor
  · intro ch alloc2 h
    simp [grpc_channel, h]
  · intro alloc2
    cases h : t._grpc_channel <;>
      simp [grpc_channel, h, create_channel, grpc_helpers_create_channel]

/-- Witness for C4 at a concrete instance holding a caller-supplied channel. -/
theorem grpc_channel_idempotent_wit :
    grpc_channel (Transport.mk "h" CredArg.pyNone (some (Channel.external 0))
        []) 5 =
      ChannelResult.mk (Channel.external 0)
        (Transport.mk "h" CredArg.pyNone (some (Channel.external 0)) []) 5 [] :=
  (grpc_channel_idempotent
    (Transport.mk "h" CredArg.pyNone (some (Channel.external 0)) []) 5).1
    (Channel.external 0) 5 rfl

/-- C5: under a (truthy) mutual-TLS endpoint and no explicit channel, the
effective host is derived from the endpoint: `":443"` is appended when the
endpoint contains no colon, and the endpoint is used unmodified when it
already contains one. -/
theorem mtls_host_derivation (host : String) (credentials : Option Cred)
    (ccs : Option CertSource) (ep : String) (alloc : Nat) (h : ep ≠ "") :
    (containsColon ep = false →
      (init host credentials none (some ep) ccs alloc).transport._host =
        ep ++ ":443") ∧
    (containsColon ep = true →
      (init host credentials none (some ep) ccs alloc).transport._host = ep) := by
  cases ccs <;> constructor <;> intro hc <;>
    simp [init, truthyStr, h, hc, baseInit, grpc_helpers_create_channel]

/-- Witness for C5: a portless endpoint gets `":443"` appended; an endpoint
with a port is used unmodified. -/
theorem mtls_host_derivation_wit :
    (init "h" none none (some "mtls.example.com") none 0).transport._host =
      "mtls.example.com:443" ∧
    (init "h" none none (some "mtls.example.com:8443") none 0).transport._host =
      "mtls.example.com:8443" :=
  ⟨(mtls_host_derivation "h" none none "mtls.example.com" 0
      (by decide)).1 (by decide),
   (mtls_host_derivation "h" none none "mtls.example.com:8443" 0
      (by decide)).2 (by decide)⟩

/-- C6: in the mutual-TLS construction path, when a `client_cert_source`
callback is supplied it is invoked exactly once (the effect trace is exactly
one callback invocation followed by one channel construction) and the SSL
credentials of the created channel are built from the returned
certificate/key pair; when no callback is supplied, no callback invocation is
traced and the channel carries the application-default SSL credentials. -/
theorem mtls_ssl_material (host : String) (credentials : Option Cred)
    (ep : String) (alloc : Nat) (h : ep ≠ "") :
    (∀ cs : CertSource,
      (init host credentials none (some ep) (some cs) alloc).effects =
        [Effect.invokeClientCertSource cs,
         Effect.createChannel (if containsColon ep then ep else ep ++ ":443")
           (credArgOf credentials)
           (some (SslCreds.sslChannelCredentials cs.certBytes cs.keyBytes))
           AUTH_SCOPES alloc] ∧
      (init host credentials none (some ep) (some cs)
          alloc).transport._grpc_channel =
        some (Channel.created (if containsColon ep then ep else ep ++ ":443")
          (credArgOf credentials)
          (some (SslCreds.sslChannelCredentials cs.certBytes cs.keyBytes))
          AUTH_SCOPES alloc)) ∧
    ((init host credentials none (some ep) none alloc).effects =
      [Effect.createChannel (if containsColon ep then ep else ep ++ ":443")
        (credArgOf credentials) (some SslCreds.applicationDefault)
        AUTH_SCOPES alloc] ∧
     (init host credentials none (some ep) none alloc).transport._grpc_channel =
      some (Channel.created (if containsColon ep then ep else ep ++ ":443")
        (credArgOf credentials) (some SslCreds.applicationDefault)
        AUTH_SCOPES alloc)) := by
  refine ⟨fun cs => ⟨?_, ?_⟩, ?_, ?_⟩ <;>
    simp [init, truthyStr, h, baseInit, grpc_helpers_create_channel]

/-- Witness for C6 with a concrete endpoint, callback and credential-free
construction. -/
theorem mtls_ssl_material_wit :
    (init "h" none none (some "ep") (some (CertSource.mk [1] [2])) 0).effects =
      [Effect.invokeClientCertSource (CertSource.mk [1] [2]),
       Effect.createChannel "ep:443" CredArg.pyNone
         (some (SslCreds.sslChannelCredentials [1] [2])) AUTH_SCOPES 0] ∧
    (init "h" none none (some "ep") none 0).effects =
      [Effect.createChannel "ep:443" CredArg.pyNone
        (some SslCreds.applicationDefault) AUTH_SCOPES 0] := by
  refine ⟨?_, ?_⟩
  · have := ((mtls_ssl_material "h" none "ep" 0 (by decide)).1
      (CertSource.mk [1] [2])).1
    simpa using this
  · have := (mtls_ssl_material "h" none "ep" 0 (by decide)).2.1
    simpa using this

/-- Helper: on a cache miss, the accessor returns the freshly constructed
stub, which binds the descriptor's path, serializer and deserializer to the
channel returned by the `grpc_channel` property. -/
theorem getStub_miss (d : MethodDesc) (t : Transport) (alloc : Nat)
    (h : t._stubs.lookup d.key = none) :
    (getStub d t alloc).stub =
      some (Stub.mk (grpc_channel t alloc).channel d.methodPath
        d.request_serializer d.response_deserializer
        (grpc_channel t alloc).nextAlloc) := by
  simp [getStub, h]

/-- C7: each of the three delete-style accessors binds the empty-message
decoder `Empty.FromString` as its response deserializer, so a successful
invocation of such a stub yields the empty sentinel and never a typed domain
value. -/
theorem delete_accessors_bind_empty (t : Transport) (alloc : Nat) :
    (t._stubs.lookup "delete_reservation" = none →
      ∃ st, (getStub delete_reservation t alloc).stub = some st ∧
        st.response_deserializer = Deserializer.emptyFromString ∧
        (∀ bs, invokeStubSuccess st bs = RespValue.emptySentinel) ∧
        (∀ bs ty pl, invokeStubSuccess st bs ≠ RespValue.typedMessage ty pl)) ∧
    (t._stubs.lookup "delete_capacity_commitment" = none →
      ∃ st, (getStub delete_capacity_commitment t alloc).stub = some st ∧
        st.response_deserializer = Deserializer.emptyFromString ∧
        (∀ bs, invokeStubSuccess st bs = RespValue.emptySentinel) ∧
        (∀ bs ty pl, invokeStubSuccess st bs ≠ RespValue.typedMessage ty pl)) ∧
    (t._stubs.lookup "delete_assignment" = none →
      ∃ st, (getStub delete_assignment t alloc).stub = some st ∧
        st.response_deserializer = Deserializer.emptyFromString ∧
        (∀ bs, invokeStubSuccess st bs = RespValue.emptySentinel) ∧
        (∀ bs ty pl, invokeStubSuccess st bs ≠ RespValue.typedMessage ty pl)) := by
  refine ⟨fun h => ?_, fun h => ?_, fun h => ?_⟩ <;>
    exact ⟨_, getStub_miss _ t alloc h, rfl, fun bs => rfl,
      fun bs ty pl => by
        simp [invokeStubSuccess, runDeserializer, delete_reservation,
          delete_capacity_commitment, delete_assignment]⟩

/-- Witness for C7 on a freshly constructed instance (empty stub mapping). -/
theorem delete_accessors_bind_empty_wit :
    ∃ st, (getStub delete_reservation
        (Transport.mk "h" CredArg.pyNone none []) 0).stub = some st ∧
      st.response_deserializer = Deserializer.emptyFromString ∧
      (∀ bs, invokeStubSuccess st bs = RespValue.emptySentinel) ∧
      (∀ bs ty pl, invokeStubSuccess st bs ≠ RespValue.typedMessage ty pl) :=
  (delete_accessors_bind_empty (Transport.mk "h" CredArg.pyNone none []) 0).1
    rfl

/-- C9: in the mutual-TLS construction path, supplied credentials are not
discarded: the new channel is created with exactly those credentials,
together with the derived SSL credentials and the fixed scope set, and the
stored `_credentials` attribute keeps them. -/
theorem mtls_credentials_take_effect (host : String) (c : Cred) (ep : String)
    (ccs : Option CertSource) (alloc : Nat) (h : ep ≠ "") :
    ∃ ssl : SslCreds,
      (init host (some c) none (some ep) ccs alloc).transport._grpc_channel =
        some (Channel.created (if containsColon ep then ep else ep ++ ":443")
          (CredArg.cred c) (some ssl) AUTH_SCOPES alloc) ∧
      Effect.createChannel (if containsColon ep then ep else ep ++ ":443")
          (CredArg.cred c) (some ssl) AUTH_SCOPES alloc ∈
        (init host (some c) none (some ep) ccs alloc).effects ∧
      (init host (some c) none (some ep) ccs alloc).transport._credentials =
        CredArg.cred c := by
  cases ccs with
  | some cs =>
    exact ⟨SslCreds.sslChannelCredentials cs.certBytes cs.keyBytes,
      by simp [init, truthyStr, h, baseInit, grpc_helpers_create_channel,
        credArgOf],
      by simp [init, truthyStr, h, baseInit, grpc_helpers_create_channel,
        credArgOf],
      by simp [init, truthyStr, h, baseInit, credArgOf]⟩
  | none =>
    exact ⟨SslCreds.applicationDefault,
      by simp [init, truthyStr, h, baseInit, grpc_helpers_create_channel,
        credArgOf],
      by simp [init, truthyStr, h, baseInit, grpc_helpers_create_channel,
        credArgOf],
      by simp [init, truthyStr, h, baseInit, credArgOf]⟩

/-- Witness for C9 at a concrete endpoint and credential object. -/
theorem mtls_credentials_take_effect_wit :
    ∃ ssl : SslCreds,
      (init "h" (some (Cred.mk 7)) none (some "ep") none 0).transport._grpc_channel =
        some (Channel.created
          (if containsColon "ep" then "ep" else "ep" ++ ":443")
          (CredArg.cred (Cred.mk 7)) (some ssl) AUTH_SCOPES 0) ∧
      Effect.createChannel
          (if containsColon "ep" then "ep" else "ep" ++ ":443")
          (CredArg.cred (Cred.mk 7)) (some ssl) AUTH_SCOPES 0 ∈
        (init "h" (some (Cred.mk 7)) none (some "ep") none 0).effects ∧
      (init "h" (some (Cred.mk 7)) none (some "ep") none 0).transport._credentials =
        CredArg.cred (Cred.mk 7) :=
  mtls_credentials_take_effect "h" (Cred.mk 7) "ep" none 0 (by decide)

/-- C10: constructing with `api_mtls_endpoint = ""` (falsy) and no channel
takes neither the explicit-channel branch nor the mutual-TLS branch: the
result is identical to a construction with no mutual-TLS endpoint and no
callback at all — no port derivation, no certificate resolution, no channel;
the first `grpc_channel` access then creates the channel from the stored host
and credentials. -/
theorem empty_mtls_endpoint_is_falsy (host : String) (credentials : Option Cred)
    (ccs : Option CertSource) (alloc : Nat) :
    init host credentials none (some "") ccs alloc =
      init host credentials none none none alloc ∧
    (init host credentials none (some "") ccs alloc).transport._grpc_channel =
      none ∧
    (init host credentials none (some "") ccs alloc).effects = [] ∧
    (init host credentials none (some "") ccs alloc).transport._host = host ∧
    (grpc_channel (init host credentials none (some "") ccs alloc).transport
        alloc).channel =
      Channel.created host (credArgOf credentials) none AUTH_SCOPES alloc := by
  simp [init, truthyStr, baseInit, grpc_channel, create_channel,
    grpc_helpers_create_channel]

end BQR
